import Mathlib

/-!
Verification development for the gamehub identity & session subsystem.

The Rust sources under `src/players` and `src/config.rs` are shallowly
embedded below: pure functions become Lean functions, fallible operations
return `Except`, the database and the collaborators of the sign-in
orchestrator become explicit data (the trait objects of the source are
mocked the same way in the repository's own tests), and wall-clock time is
passed explicitly as an integer count of milliseconds since the epoch
(chrono datetimes carry sub-second precision; `timestamp()` floors to
seconds, which for a positive divisor is Euclidean division `/` on `Int`).
-/

namespace Gamehub

/-- Identifier of a player (`PlayerId(pub Uuid)` in `player.rs`); the UUID is
modelled as an opaque natural number. -/
structure PlayerId where
  val : Nat
deriving DecidableEq, Repr

/-- Screen name of a player (`PlayerScreenName(String)` in `player.rs`). -/
structure PlayerScreenName where
  val : String
deriving DecidableEq, Repr

/-- Join timestamp of a player (`PlayerJoinedAt(DateTime<Utc>)`), in
milliseconds since the epoch. -/
structure PlayerJoinedAt where
  val : Int
deriving DecidableEq, Repr

/-- Player record (`Player` in `player.rs`). -/
structure Player where
  id : PlayerId
  screen_name : PlayerScreenName
  joined_at : PlayerJoinedAt
deriving DecidableEq, Repr

/-- Third-party sign-in providers (`ThirdPartySignInProvider` in
`sign_in_method.rs`; the only variant today is Google). -/
inductive ThirdPartySignInProvider where
  | google
deriving DecidableEq, Repr

/-- User id within a third-party provider (`ThirdPartySignInUserId(String)`). -/
structure ThirdPartySignInUserId where
  val : String
deriving DecidableEq, Repr

/-- Third-party sign-in method (`ThirdPartySignInMethod` in
`sign_in_method.rs`). -/
structure ThirdPartySignInMethod where
  provider : ThirdPartySignInProvider
  user_id : ThirdPartySignInUserId
deriving DecidableEq, Repr

/-- Sign-in methods (`SignInMethod` in `sign_in_method.rs`). -/
inductive SignInMethod where
  | thirdParty (method : ThirdPartySignInMethod)
deriving DecidableEq, Repr

/-- Error of the external id-token verifier
(`id_token_verifier::IdTokenVerifierError`), opaque here: the orchestrator
only wraps and propagates it. -/
structure IdTokenVerifierError where
  message : String
deriving DecidableEq, Repr

/-- Error kinds of the `jsonwebtoken` crate that the JWT service can surface
(`jsonwebtoken::errors::ErrorKind`): expiry, signature mismatch, wrong
algorithm, and the structural kinds are collapsed into `malformed`. -/
inductive JwtErrorKind where
  | expiredSignature
  | invalidSignature
  | invalidAlgorithm
  | malformed
deriving DecidableEq, Repr

/-- Players errors (`PlayersError` in `error.rs`): the payloads of
`IdToken`, `AuthToken` and `Internal` are the wrapped verifier error, the
`jsonwebtoken` error kind, and the `anyhow` context message. -/
inductive PlayersError where
  | playerNotFound
  | idToken (e : IdTokenVerifierError)
  | authToken (e : JwtErrorKind)
  | authTokenMissing
  | internal (message : String)
deriving DecidableEq, Repr

/-- Outbound API error shape (`ApiError` in `api_error.rs`). -/
structure ApiError where
  module : String
  id : Nat
  dev_message : String
deriving DecidableEq, Repr

/-- Display message of a `PlayersError`, from the `thiserror` attributes in
`error.rs`. -/
def PlayersError.devMessage : PlayersError → String
  | .playerNotFound => "player not found"
  | .idToken e => "error when verifying third party id token: " ++ e.message
  | .authToken _ => "error when verifying auth token"
  | .authTokenMissing => "auth token is missing"
  | .internal m => "internal error: " ++ m

/-- Status code and error id chosen by `PlayersError::into_response` in
`error.rs`. -/
def PlayersError.statusAndId : PlayersError → Nat × Nat
  | .idToken _ => (400, 0)
  | .playerNotFound => (401, 1)
  | .authToken _ => (401, 2)
  | .authTokenMissing => (401, 3)
  | .internal _ => (500, 4)

/-- Response body built by `PlayersError::into_response`: the status code
together with the `ApiError` payload (`module = "players"`). -/
def PlayersError.into_response (e : PlayersError) : Nat × ApiError :=
  ((e.statusAndId).1, ⟨"players", (e.statusAndId).2, e.devMessage⟩)

/-- Outbound error id of a `PlayersError` (the `id` field of the `ApiError`
produced by `into_response`). -/
def PlayersError.apiErrorId (e : PlayersError) : Nat :=
  (e.into_response).2.id

/-- Constructor tag of a `PlayersError`, used to state that distinct
variants receive distinct outbound ids. -/
def PlayersError.variantTag : PlayersError → Nat
  | .playerNotFound => 0
  | .idToken _ => 1
  | .authToken _ => 2
  | .authTokenMissing => 3
  | .internal _ => 4

/-! ## The jsonwebtoken layer

`jwt_service.rs` delegates encoding, signature verification and expiry
validation to the `jsonwebtoken` crate (HS256, `Validation::default()`).
The crate is embedded at the level of its documented semantics: a token is
the triple of header, claims and signature bytes; the HMAC is idealised as
a collision-free keyed function of the header and the claims; `decode`
checks the algorithm, then the signature, then (`validate_exp`, on by
default with a 60-second leeway) rejects tokens whose `exp` lies more than
`leeway` seconds before the current time. -/

/-- JWT signing algorithms (subset of `jsonwebtoken::Algorithm`;
`Header::default()` and `Validation::default()` both use HS256). -/
inductive Algorithm where
  | hs256
  | hs384
deriving DecidableEq, Repr

/-- JWT header (`jsonwebtoken::Header`), reduced to the algorithm. -/
structure JwtHeader where
  alg : Algorithm
deriving DecidableEq, Repr

/-- Default JWT header: HS256. -/
def JwtHeader.default : JwtHeader := ⟨.hs256⟩

/-- Claims carried by an auth token (`AuthTokenClaims` in `jwt_service.rs`);
`exp` and `iat` are Unix timestamps in seconds. -/
structure AuthTokenClaims where
  exp : Int
  iat : Int
  sub : PlayerId
deriving DecidableEq, Repr

/-- Verification settings (`jsonwebtoken::Validation`), reduced to the
fields the default configuration exercises. -/
structure JwtValidation where
  leeway : Nat
  validate_exp : Bool
  algorithms : List Algorithm
deriving DecidableEq, Repr

/-- Default validation: 60-second leeway, expiry validated, HS256. -/
def JwtValidation.default : JwtValidation := ⟨60, true, [.hs256]⟩

/-- Base-256 digits of a natural number, little-endian, with explicit fuel
(the first argument) so that the recursion is structural. -/
def natDigits256Aux : Nat → Nat → List Nat
  | 0, _ => []
  | fuel + 1, n => if n = 0 then [] else (n % 256) :: natDigits256Aux fuel (n / 256)

/-- Base-256 digits of a natural number, little-endian. -/
def natBytes (n : Nat) : List Nat := natDigits256Aux (n + 1) n

/-- Byte encoding of an integer used inside the idealised MAC: a sign tag
followed by the base-256 digits of the magnitude. -/
def intBytes : Int → List Nat
  | .ofNat n => 0 :: natBytes n
  | .negSucc n => 1 :: natBytes n

/-- Byte encoding of the claims used inside the idealised MAC. -/
def claimsBytes (c : AuthTokenClaims) : List Nat :=
  intBytes c.exp ++ intBytes c.iat ++ intBytes (Int.ofNat c.sub.val)

/-- Byte encoding of the header used inside the idealised MAC. -/
def headerBytes (h : JwtHeader) : List Nat :=
  match h.alg with
  | .hs256 => [0]
  | .hs384 => [1]

/-- Idealised HMAC: the signature bytes are a function of the key and of
the signed content, and two signing inputs that differ anywhere produce
signatures this model can tell apart. -/
def macSig (key : String) (h : JwtHeader) (c : AuthTokenClaims) : List Nat :=
  (key.data.map Char.toNat) ++ headerBytes h ++ claimsBytes c

/-- An encoded token as the `jsonwebtoken` crate sees it after splitting
and base64-decoding the three segments: header, claims and signature
bytes. -/
structure EncodedToken where
  header : JwtHeader
  claims : AuthTokenClaims
  sig : List Nat
deriving DecidableEq, Repr

/-- Model of `jsonwebtoken::encode`: serialize the header and claims and
sign them with the secret. For these claim and header types serialization
cannot fail. -/
def jwtEncode (h : JwtHeader) (c : AuthTokenClaims) (secret : String) : EncodedToken :=
  ⟨h, c, macSig secret h c⟩

/-- Model of `jsonwebtoken::decode` at verification time `nowSec` (seconds
since the epoch, as `get_current_timestamp` returns): the algorithm check,
then the signature check, then expiry validation with leeway. -/
def jwtDecode (tok : EncodedToken) (secret : String) (v : JwtValidation)
    (nowSec : Int) : Except JwtErrorKind AuthTokenClaims :=
  if tok.header.alg ∉ v.algorithms then
    .error .invalidAlgorithm
  else if tok.sig ≠ macSig secret tok.header tok.claims then
    .error .invalidSignature
  else if v.validate_exp ∧ tok.claims.exp < nowSec - (v.leeway : Int) then
    .error .expiredSignature
  else
    .ok tok.claims

/-! ## The JWT service -/

/-- JWT configuration (`JwtConfig` in `config.rs`): the signing secret and
the token TTL, a chrono `Duration` modelled in milliseconds
(`duration_str` accepts sub-second values such as `"1500ms"`). -/
structure JwtConfig where
  secret : String
  ttl : Int
deriving DecidableEq, Repr

/-- Default implementation of the JWT service (`JwtServiceDefault` in
`jwt_service.rs`). -/
structure JwtServiceDefault where
  validation : JwtValidation
  decoding_key : String
  encoding_key : String
  header : JwtHeader
  token_ttl : Int
deriving DecidableEq, Repr

/-- Constructor `JwtServiceDefault::new`: default validation and header,
both keys derived from the configured secret, TTL from the configuration. -/
def JwtServiceDefault.new (config : JwtConfig) : JwtServiceDefault :=
  ⟨JwtValidation.default, config.secret, config.secret, JwtHeader.default, config.ttl⟩

/-- Timestamp in whole seconds of an instant held in milliseconds
(chrono `timestamp()` floors; for the positive divisor 1000 the Euclidean
division `/` on `Int` is that floor). -/
def toTimestamp (ms : Int) : Int := ms / 1000

/-- Model of `JwtServiceDefault::create_token` called at instant `now`
(milliseconds): claims with `exp = (now + ttl).timestamp()`,
`iat = now.timestamp()`, subject the player id, signed with the encoding
key. -/
def JwtServiceDefault.create_token (svc : JwtServiceDefault) (player_id : PlayerId)
    (now : Int) : Except PlayersError EncodedToken :=
  let claims : AuthTokenClaims :=
    ⟨toTimestamp (now + svc.token_ttl), toTimestamp now, player_id⟩
  .ok (jwtEncode svc.header claims svc.encoding_key)

/-- Model of `JwtServiceDefault::verify_token` called at instant `now`
(milliseconds): decode with the decoding key and the validation settings,
wrapping any failure in `PlayersError::AuthToken`. -/
def JwtServiceDefault.verify_token (svc : JwtServiceDefault) (tok : EncodedToken)
    (now : Int) : Except PlayersError AuthTokenClaims :=
  match jwtDecode tok svc.decoding_key svc.validation (toTimestamp now) with
  | .error e => .error (.authToken e)
  | .ok c => .ok c

/-! ## Token extraction from request parts

`AuthTokenClaims::from_request_parts` in `jwt_service.rs` reads the
authorization header, converts it to a string with `to_str().ok()`, and on
success slices off the first `"Bearer ".len()` = 7 bytes before handing the
rest to `verify_token`. A header value is a byte sequence; the `http`
crate's `to_str` succeeds exactly when every byte is visible ASCII or
space (32..=126). Rust string slicing `&s[7..]` panics when the string is
shorter than 7 bytes, so the outcome type has an explicit panic case. -/

/-- Outcome of running the extractor: success, a typed rejection, or a
Rust panic. -/
inductive ExtractionOutcome where
  | ok (claims : AuthTokenClaims)
  | err (e : PlayersError)
  | panicked
deriving DecidableEq, Repr

/-- Model of `http::HeaderValue::to_str`: succeeds exactly when every byte
of the header value is in the visible-ASCII-plus-space range 32..=126. -/
def headerValueToStr (bytes : List Nat) : Option (List Char) :=
  if bytes.all (fun b => 32 ≤ b && b ≤ 126) then
    some (bytes.map Char.ofNat)
  else
    none

/-- Model of `AuthTokenClaims::from_request_parts`. The JWT service of the
application state is abstracted as the function `verifyFn` it is called
through (`state.jwt_service().verify_token(..)`); `authorization` is the
raw byte value of the authorization header when present. -/
def from_request_parts (verifyFn : List Char → Except PlayersError AuthTokenClaims)
    (authorization : Option (List Nat)) : ExtractionOutcome :=
  match authorization.bind headerValueToStr with
  | some headerChars =>
      if headerChars.length < 7 then
        .panicked
      else
        match verifyFn (headerChars.drop 7) with
        | .ok claims => .ok claims
        | .error e => .err e
  | none => .err .authTokenMissing

/-! ## The database layer

`PlayersDb for PgPool` in `players_db.rs` runs the inserts inside one
transaction and wraps every sqlx failure with an `anyhow` context string
(`"create player"`, `"create sign in method"`, ...), which reaches
`PlayersError` through the `#[from] anyhow::Error` conversion as the
`Internal` variant. The relational state is the two tables; the schema
constraints behind the failures (primary key on `player.id`, and the
unique key on `(provider, user_id)` required by the spec: "Must fail ...
when the sign-in-method key already exists", whose migration file is not
part of the sources) decide when an insert fails. -/

/-- Relational state: the `player` table and the
`third_party_sign_in_method` table (rows of provider, user id and owning
player id). -/
structure DbState where
  players : List Player
  third_party_sign_in_methods : List (ThirdPartySignInMethod × PlayerId)
deriving DecidableEq, Repr

/-- Does the store already hold a sign-in-method row with this key
(provider, external user id)? -/
def DbState.hasSignInMethodKey (db : DbState) (tp : ThirdPartySignInMethod) : Bool :=
  db.third_party_sign_in_methods.any
    (fun row => row.1.provider = tp.provider && row.1.user_id = tp.user_id)

/-- Does the store already hold a player with this id? -/
def DbState.hasPlayerId (db : DbState) (id : PlayerId) : Bool :=
  db.players.any (fun p => p.id = id)

/-- Model of `create_player_with_sign_in_method` on `PgPool`: inside one
transaction, insert the player row, then the sign-in-method row, then
commit; a constraint violation on either insert aborts the transaction and
surfaces through the `anyhow` context as `PlayersError::Internal`. On
success the new store state is returned alongside. -/
def DbState.create_player_with_sign_in_method (db : DbState) (player : Player)
    (sign_in_method : SignInMethod) : Except PlayersError DbState :=
  if db.hasPlayerId player.id then
    .error (.internal "create player")
  else
    match sign_in_method with
    | .thirdParty tp =>
        if db.hasSignInMethodKey tp then
          .error (.internal "create sign in method")
        else
          .ok ⟨player :: db.players, (tp, player.id) :: db.third_party_sign_in_methods⟩

/-- Model of `find_player_with_sign_in_method` on `PgPool`: the join of the
two tables on the key, `fetch_optional` then `ok_or(PlayerNotFound)`. -/
def DbState.find_player_with_sign_in_method (db : DbState)
    (sign_in_method : SignInMethod) : Except PlayersError Player :=
  match sign_in_method with
  | .thirdParty tp =>
      match db.third_party_sign_in_methods.find?
          (fun row => row.1.provider = tp.provider && row.1.user_id = tp.user_id) with
      | some row =>
          match db.players.find? (fun p => p.id = row.2) with
          | some p => .ok p
          | none => .error .playerNotFound
      | none => .error .playerNotFound

/-- Model of `find_player_by_id` on `PgPool`. -/
def DbState.find_player_by_id (db : DbState) (player_id : PlayerId) :
    Except PlayersError Player :=
  match db.players.find? (fun p => p.id = player_id) with
  | some p => .ok p
  | none => .error .playerNotFound

/-! ## The sign-in orchestrator

`PlayersServiceDefault::sign_in` in `players_service.rs` is generic over
its three collaborators (the Google id-token verifier, the players
database and the JWT service — the repository's own tests substitute mocks
for each). They are embedded as explicit function-valued dependencies,
each giving the result of the one call the orchestrator makes to it; the
database results are separate fields precisely because the store state can
change between the lookup and the creation when requests race. -/

/-- Claims of a verified third-party id token (`ThirdPartyIdTokenClaims`). -/
structure ThirdPartyIdTokenClaims where
  sub : ThirdPartySignInUserId
deriving DecidableEq, Repr

/-- A sign-in request (`SignInRequest` in `http.rs`); the payload is the
opaque Google id token. -/
inductive SignInRequest where
  | google (id_token : String)
deriving DecidableEq, Repr

/-- Collaborators of one `sign_in` call: the id-token verifier, the result
of the (single) database lookup, the result of the (single) creation
attempt, the freshly generated player used if creation is attempted
(`PlayerId::random()`, `PlayerScreenName::random()`,
`PlayerJoinedAt::now()`), and the JWT service call. -/
structure SignInDeps where
  verifyIdToken : String → Except IdTokenVerifierError ThirdPartyIdTokenClaims
  findPlayer : SignInMethod → Except PlayersError Player
  createPlayer : Player → SignInMethod → Except PlayersError Unit
  freshPlayer : Player
  createToken : PlayerId → Except PlayersError EncodedToken

/-- Model of `PlayersServiceDefault::sign_in`: verify the id token (wrap a
failure as `PlayersError::IdToken`), derive the sign-in-method key, look
the player up; on `PlayerNotFound` build a fresh player and attempt
creation, propagating any creation error with `?`; any other lookup error
propagates; finally create the auth token for the resolved player. -/
def sign_in (deps : SignInDeps) (request : SignInRequest) :
    Except PlayersError EncodedToken :=
  match request with
  | .google id_token =>
      match deps.verifyIdToken id_token with
      | .error e => .error (.idToken e)
      | .ok claims =>
          let sign_in_method : SignInMethod :=
            .thirdParty ⟨.google, claims.sub⟩
          let playerResult : Except PlayersError Player :=
            match deps.findPlayer sign_in_method with
            | .ok player => .ok player
            | .error .playerNotFound =>
                let player := deps.freshPlayer
                match deps.createPlayer player sign_in_method with
                | .error e => .error e
                | .ok _ => .ok player
            | .error e => .error e
          match playerResult with
          | .error e => .error e
          | .ok player => deps.createToken player.id

/-! ## Configuration and its diagnostic rendering

`config.rs` derives `Debug` for `PostgresConfig` and `JwtConfig` through
`derive_more`, overriding the `username`, `password` and `secret` fields
with the fixed literals `<postgres_username_redacted>`,
`<postgres_password_redacted>` and `<jwt_secret_redacted>`; the remaining
fields render with the standard `Debug` formatting. The backend crate's
`SecretConfig<T>` (`secret_config.rs`) implements `Debug` by writing
`Secret(<type name>)`, a function of the type only. String `Debug`
formatting is modelled for the escaping cases relevant to configuration
values (quote, backslash and the common control characters); braces in the
rendered text are the ordinary ASCII braces. -/

/-- Escape of one character inside a Rust `Debug` string rendering. -/
def debugEscapeChar (c : Char) : List Char :=
  if c = '"' then ['\\', '"']
  else if c = '\\' then ['\\', '\\']
  else if c = '\n' then ['\\', 'n']
  else if c = '\t' then ['\\', 't']
  else if c = '\r' then ['\\', 'r']
  else [c]

/-- Rust `Debug` rendering of a string: escaped and wrapped in quotes. -/
def debugStr (s : String) : String :=
  "\"" ++ String.mk (s.data.flatMap debugEscapeChar) ++ "\""

/-- Postgres configuration (`PostgresConfig` in `config.rs`). -/
structure PostgresConfig where
  host : String
  port : Nat
  username : String
  password : String
  database : String
deriving DecidableEq, Repr

/-- Debug rendering of `PostgresConfig` as derived in `config.rs`: the
username and password fields render as their fixed redaction literals. -/
def PostgresConfig.debugRender (c : PostgresConfig) : String :=
  "PostgresConfig \x7b host: " ++ debugStr c.host ++
  ", port: " ++ toString c.port ++
  ", username: <postgres_username_redacted>" ++
  ", password: <postgres_password_redacted>" ++
  ", database: " ++ debugStr c.database ++ " \x7d"

/-- Debug rendering of a chrono `TimeDelta` held in milliseconds. -/
def timeDeltaDebugRender (ms : Int) : String :=
  "TimeDelta \x7b secs: " ++ toString (ms / 1000) ++
  ", nanos: " ++ toString ((ms % 1000) * 1000000) ++ " \x7d"

/-- Debug rendering of `JwtConfig` as derived in `config.rs`: the secret
field renders as its fixed redaction literal. -/
def JwtConfig.debugRender (c : JwtConfig) : String :=
  "JwtConfig \x7b secret: <jwt_secret_redacted>, ttl: " ++
  timeDeltaDebugRender c.ttl ++ " \x7d"

/-- Secret configuration wrapper of the backend crate (`SecretConfig<T>` in
`secret_config.rs`). -/
structure SecretConfig (T : Type) where
  value : T
deriving DecidableEq, Repr

/-- Debug rendering of `SecretConfig<T>`: `Secret(<type name>)`, where the
type name (`type_name_of_val` in Rust, a compile-time constant of the
type) is passed explicitly. -/
def SecretConfig.debugRender {T : Type} (typeName : String) (_ : SecretConfig T) : String :=
  "Secret(" ++ typeName ++ ")"

/-- Does the first character list occur at the front of the second? -/
def leadsChars : List Char → List Char → Bool
  | [], _ => true
  | _ :: _, [] => false
  | a :: as, b :: bs => a = b && leadsChars as bs

/-- Does the first character list occur contiguously anywhere inside the
second? -/
def occursIn (needle : List Char) : List Char → Bool
  | [] => needle.isEmpty
  | c :: cs => leadsChars needle (c :: cs) || occursIn needle cs

/-- Substring test on strings, via `occursIn` on the character lists. -/
def strOccursIn (needle hay : String) : Bool :=
  occursIn needle.data hay.data

/-- The empty needle occurs in every list. -/
theorem occursIn_nil_needle (t : List Char) : occursIn [] t = true := by
  cases t <;> simp [occursIn, leadsChars]

/-- A needle that leads a list still leads it after appending on the
right. -/
theorem leadsChars_append (n : List Char) (h t : List Char)
    (H : leadsChars n h = true) : leadsChars n (h ++ t) = true := by
  induction n generalizing h with
  | nil => simp [leadsChars]
  | cons a as ih =>
    cases h with
    | nil => simp [leadsChars] at H
    | cons b bs =>
      simp only [List.cons_append, leadsChars, Bool.and_eq_true,
        decide_eq_true_eq] at H ⊢
      exact ⟨H.1, ih bs H.2⟩

/-- A needle occurring in the right part of an append occurs in the whole. -/
theorem occursIn_append_of_right (n t h : List Char)
    (H : occursIn n t = true) : occursIn n (h ++ t) = true := by
  induction h with
  | nil => simpa
  | cons c cs ih =>
    simp only [List.cons_append, occursIn, Bool.or_eq_true]
    exact Or.inr ih

/-- A needle occurring in the left part of an append occurs in the whole. -/
theorem occursIn_append_of_left (n h t : List Char)
    (H : occursIn n h = true) : occursIn n (h ++ t) = true := by
  induction h with
  | nil =>
    simp only [occursIn, List.isEmpty_iff] at H
    subst H
    simpa using occursIn_nil_needle t
  | cons c cs ih =>
    simp only [occursIn, Bool.or_eq_true] at H
    simp only [List.cons_append, occursIn, Bool.or_eq_true]
    rcases H with H | H
    · exact Or.inl (leadsChars_append _ _ _ H)
    · exact Or.inr (ih H)

/-! ## Claims -/

/-- Claim C9: the outbound `ApiError` id is 0 for an invalid third-party
identity token, 1 for player not found, 2 for an invalid session token,
3 for a missing session token, and 4 for an internal error; every produced
id is one of 0..4, and two errors with the same id are the same variant. -/
theorem claim_C9_error_ids :
    (∀ e : IdTokenVerifierError, (PlayersError.idToken e).apiErrorId = 0) ∧
    PlayersError.playerNotFound.apiErrorId = 1 ∧
    (∀ k : JwtErrorKind, (PlayersError.authToken k).apiErrorId = 2) ∧
    PlayersError.authTokenMissing.apiErrorId = 3 ∧
    (∀ m : String, (PlayersError.internal m).apiErrorId = 4) ∧
    (∀ e : PlayersError, e.apiErrorId ≤ 4) ∧
    (∀ e e' : PlayersError, e.apiErrorId = e'.apiErrorId →
      e.variantTag = e'.variantTag) := by
  refine ⟨fun e => rfl, rfl, fun k => rfl, rfl, fun m => rfl, ?_, ?_⟩
  · intro e
    cases e <;>
      simp [PlayersError.apiErrorId, PlayersError.into_response, PlayersError.statusAndId]
  · intro e e' h
    cases e <;> cases e' <;>
      simp_all [PlayersError.apiErrorId, PlayersError.into_response,
        PlayersError.statusAndId, PlayersError.variantTag]

/-- Claim C9 witness: two invalid-session-token errors share id 2 and,
per the injectivity part, the same variant tag. -/
theorem claim_C9_error_ids_witness :
    (PlayersError.authToken .invalidSignature).variantTag =
      (PlayersError.authToken .expiredSignature).variantTag :=
  claim_C9_error_ids.2.2.2.2.2.2
    (PlayersError.authToken .invalidSignature)
    (PlayersError.authToken .expiredSignature) (by decide)

/-- Claim C10: when the authorization header is present but its value
cannot be read as a string (`to_str()` fails, i.e. some byte falls outside
the visible-ASCII range), extraction returns `AuthTokenMissing`, the same
outcome as for an absent header. -/
theorem claim_C10_unreadable_header
    (verifyFn : List Char → Except PlayersError AuthTokenClaims)
    (bytes : List Nat) (h : headerValueToStr bytes = none) :
    from_request_parts verifyFn (some bytes) = .err .authTokenMissing := by
  simp [from_request_parts, h]

/-- Claim C10 witness: the header value consisting of the single byte 200
is not readable as a string and extraction returns `AuthTokenMissing`. -/
theorem claim_C10_unreadable_header_witness :
    headerValueToStr [200] = none ∧
    from_request_parts (fun _ => .error (.internal "unused")) (some [200]) =
      .err .authTokenMissing :=
  ⟨by decide, claim_C10_unreadable_header _ [200] (by decide)⟩

/-- Claim C3: evaluation of the extractor at the failing input. The
authorization header value `"abc"` is readable as a string but shorter
than the 7-byte `"Bearer "` whose length the code unconditionally slices
off, so `&header_value_str["Bearer ".len()..]` is an out-of-bounds string
slice and the extractor panics instead of returning the malformed or
invalid-signature rejection, whatever the JWT service would answer. -/
theorem claim_C3_short_header_panics
    (verifyFn : List Char → Except PlayersError AuthTokenClaims) :
    from_request_parts verifyFn (some [97, 98, 99]) = .panicked := by
  simp [from_request_parts, headerValueToStr]

/-- Claim C2 counterexample: a store that already holds the sign-in-method
key `(Google, "ext-42")`. Creation fails, but with the generic
`PlayersError::Internal` kind (the `anyhow` context of the failed insert),
the very same kind every other persistence failure produces — not with a
distinguishable uniqueness-conflict kind. -/
theorem claim_C2_counterexample :
    DbState.create_player_with_sign_in_method
      ⟨[⟨⟨1⟩, ⟨"old-name"⟩, ⟨0⟩⟩], [(⟨.google, ⟨"ext-42"⟩⟩, ⟨1⟩)]⟩
      ⟨⟨2⟩, ⟨"new-name"⟩, ⟨5⟩⟩
      (.thirdParty ⟨.google, ⟨"ext-42"⟩⟩)
      = .error (.internal "create sign in method") := by
  rfl

/-- Claim C2 amended: whenever the sign-in-method key already exists (and
the freshly generated player id itself is not already taken, which is the
earlier insert in the transaction), `create_player_with_sign_in_method`
fails — but with the generic `Internal` error kind shared with every other
persistence failure, carrying only the `anyhow` context of the failed
insert; no distinguishable uniqueness-conflict kind is produced. -/
theorem claim_C2_amended (db : DbState) (p : Player) (tp : ThirdPartySignInMethod)
    (hid : db.hasPlayerId p.id = false)
    (hkey : db.hasSignInMethodKey tp = true) :
    db.create_player_with_sign_in_method p (.thirdParty tp) =
      .error (.internal "create sign in method") := by
  simp [DbState.create_player_with_sign_in_method, hid, hkey]

/-- Claim C2 amended witness: concrete store holding the key
`(Google, "ext-7")`; the creation of a distinct player under the same key
fails with the `Internal` kind. -/
theorem claim_C2_amended_witness :
    (DbState.hasPlayerId ⟨[], [(⟨.google, ⟨"ext-7"⟩⟩, ⟨3⟩)]⟩ ⟨4⟩ = false) ∧
    (DbState.hasSignInMethodKey ⟨[], [(⟨.google, ⟨"ext-7"⟩⟩, ⟨3⟩)]⟩
      ⟨.google, ⟨"ext-7"⟩⟩ = true) ∧
    DbState.create_player_with_sign_in_method
      ⟨[], [(⟨.google, ⟨"ext-7"⟩⟩, ⟨3⟩)]⟩
      ⟨⟨4⟩, ⟨"n"⟩, ⟨9⟩⟩ (.thirdParty ⟨.google, ⟨"ext-7"⟩⟩)
      = .error (.internal "create sign in method") :=
  ⟨by rfl, by rfl,
    claim_C2_amended ⟨[], [(⟨.google, ⟨"ext-7"⟩⟩, ⟨3⟩)]⟩
      ⟨⟨4⟩, ⟨"n"⟩, ⟨9⟩⟩ ⟨.google, ⟨"ext-7"⟩⟩ (by decide) (by decide)⟩

/-- Collaborators reproducing the losing side of the creation race: the id
token verifies to subject `"ext-42"`, the lookup (run while the concurrent
winner had not yet committed) reports `PlayerNotFound`, and the creation
attempt then hits the uniqueness violation, which the database layer
reports as `Internal` with the `anyhow` context of the failed insert. -/
def raceDeps : SignInDeps where
  verifyIdToken := fun _ => .ok ⟨⟨"ext-42"⟩⟩
  findPlayer := fun _ => .error .playerNotFound
  createPlayer := fun _ _ => .error (.internal "create sign in method")
  freshPlayer := ⟨⟨7⟩, ⟨"fresh-name"⟩, ⟨100⟩⟩
  createToken := fun pid => .ok (jwtEncode JwtHeader.default ⟨1000, 0, pid⟩ "secret")

/-- Claim C1 counterexample: for the caller that loses the creation race,
`sign_in` returns exactly the creation error to the caller — it does not
re-attempt the lookup and does not return a session token. -/
theorem claim_C1_counterexample :
    sign_in raceDeps (.google "google-id-token") =
      .error (.internal "create sign in method") := by
  rfl

/-- Claim C1 amended: when the id token verifies, the lookup reports
`PlayerNotFound` and the creation attempt fails — in particular when a
concurrent request created the record first, which the database layer
reports as the generic `Internal` error — `sign_in` propagates that
creation error to the caller unchanged; it performs no second lookup and
returns no session token. -/
theorem claim_C1_amended (deps : SignInDeps) (id_token : String)
    (claims : ThirdPartyIdTokenClaims) (e : PlayersError)
    (hverify : deps.verifyIdToken id_token = .ok claims)
    (hfind : deps.findPlayer (.thirdParty ⟨.google, claims.sub⟩) =
      .error .playerNotFound)
    (hcreate : deps.createPlayer deps.freshPlayer
      (.thirdParty ⟨.google, claims.sub⟩) = .error e) :
    sign_in deps (.google id_token) = .error e := by
  simp [sign_in, hverify, hfind, hcreate]

/-- Claim C1 amended witness: the race collaborators satisfy the three
hypotheses, and `sign_in` surfaces the creation error. -/
theorem claim_C1_amended_witness :
    raceDeps.verifyIdToken "google-id-token" = .ok ⟨⟨"ext-42"⟩⟩ ∧
    raceDeps.findPlayer (.thirdParty ⟨.google, ⟨"ext-42"⟩⟩) =
      .error .playerNotFound ∧
    raceDeps.createPlayer raceDeps.freshPlayer
      (.thirdParty ⟨.google, ⟨"ext-42"⟩⟩) =
      .error (.internal "create sign in method") ∧
    sign_in raceDeps (.google "google-id-token") =
      .error (.internal "create sign in method") :=
  ⟨rfl, rfl, rfl,
    claim_C1_amended raceDeps "google-id-token" ⟨⟨"ext-42"⟩⟩
      (.internal "create sign in method") rfl rfl rfl⟩

/-- Claim C4: for every player id, verifying a token immediately after
issuing it (same service instance, hence same key material, and a
non-negative configured TTL) succeeds, and the recovered subject is that
player id. -/
theorem claim_C4_round_trip (cfg : JwtConfig) (pid : PlayerId) (now : Int)
    (h : 0 ≤ cfg.ttl) :
    ∃ tok claims,
      (JwtServiceDefault.new cfg).create_token pid now = .ok tok ∧
      (JwtServiceDefault.new cfg).verify_token tok now = .ok claims ∧
      claims.sub = pid := by
  have hdiv : now / 1000 ≤ (now + cfg.ttl) / 1000 :=
    Int.ediv_le_ediv (by norm_num) (by omega)
  refine ⟨jwtEncode JwtHeader.default
      ⟨toTimestamp (now + cfg.ttl), toTimestamp now, pid⟩ cfg.secret,
    ⟨toTimestamp (now + cfg.ttl), toTimestamp now, pid⟩, rfl, ?_, rfl⟩
  simp only [JwtServiceDefault.new, JwtServiceDefault.verify_token, jwtEncode,
    jwtDecode, JwtValidation.default, JwtHeader.default, toTimestamp]
  rw [if_neg (by simp), if_neg (by simp), if_neg (by simp; omega)]

/-- Claim C4 witness: round trip at a concrete configuration (one-hour
TTL), player id and instant. -/
theorem claim_C4_round_trip_witness :
    (0 : Int) ≤ (3600000 : Int) ∧
    ∃ tok claims,
      (JwtServiceDefault.new ⟨"top-secret", 3600000⟩).create_token ⟨1⟩ 0 = .ok tok ∧
      (JwtServiceDefault.new ⟨"top-secret", 3600000⟩).verify_token tok 0 = .ok claims ∧
      claims.sub = ⟨1⟩ :=
  ⟨by norm_num, claim_C4_round_trip ⟨"top-secret", 3600000⟩ ⟨1⟩ 0 (by norm_num)⟩

/-- Claim C5 counterexample: with a TTL of 1500 milliseconds, two calls of
`create_token` on the same service return claims with `exp - iat = 2`
(call instant 600 ms) and `exp - iat = 1` (call instant 0), so `exp - iat`
is not a function of the configured TTL alone; in particular it does not
always equal the TTL in seconds. -/
theorem claim_C5_counterexample :
    ((JwtServiceDefault.new ⟨"k", 1500⟩).create_token ⟨1⟩ 600).toOption.map
        (fun t => t.claims.exp - t.claims.iat) = some 2 ∧
    ((JwtServiceDefault.new ⟨"k", 1500⟩).create_token ⟨1⟩ 0).toOption.map
        (fun t => t.claims.exp - t.claims.iat) = some 1 := by
  constructor <;> rfl

/-- Claim C5 amended: `create_token` builds claims with `iat` the Unix
timestamp of the call instant and `exp` the timestamp of that instant plus
the configured TTL; whenever the TTL is a whole number of seconds (any TTL
written in whole seconds, minutes or hours in the configuration),
`exp - iat` equals exactly the TTL in seconds. For sub-second TTL values
the difference additionally depends on the sub-second part of the call
instant. -/
theorem claim_C5_amended (cfg : JwtConfig) (pid : PlayerId) (now : Int)
    (h : (1000 : Int) ∣ cfg.ttl) :
    ∃ tok,
      (JwtServiceDefault.new cfg).create_token pid now = .ok tok ∧
      tok.claims.iat = toTimestamp now ∧
      tok.claims.exp - tok.claims.iat = cfg.ttl / 1000 := by
  refine ⟨_, rfl, rfl, ?_⟩
  show (now + cfg.ttl) / 1000 - now / 1000 = cfg.ttl / 1000
  obtain ⟨k, hk⟩ := h
  rw [hk, mul_comm, Int.add_mul_ediv_right _ _ (by norm_num),
    Int.mul_ediv_cancel _ (by norm_num)]
  ring

/-- Claim C5 amended witness: a one-hour TTL at a concrete call instant
with a non-zero sub-second part. -/
theorem claim_C5_amended_witness :
    ((1000 : Int) ∣ (3600000 : Int)) ∧
    ∃ tok,
      (JwtServiceDefault.new ⟨"top-secret", 3600000⟩).create_token ⟨2⟩ 123456 =
        .ok tok ∧
      tok.claims.iat = toTimestamp 123456 ∧
      tok.claims.exp - tok.claims.iat = (3600000 : Int) / 1000 :=
  ⟨by norm_num, claim_C5_amended ⟨"top-secret", 3600000⟩ ⟨2⟩ 123456 (by norm_num)⟩

/-- Claim C6: for a correctly-signed token (signed with the service's own
secret and default header), verification fails with the expired kind when
the expiry timestamp lies more than the 60-second leeway before the
current time, and succeeds when the expiry lies in the future. -/
theorem claim_C6_expiry_boundary (cfg : JwtConfig) (c : AuthTokenClaims) (now : Int) :
    (c.exp < toTimestamp now - 60 →
      (JwtServiceDefault.new cfg).verify_token
          (jwtEncode JwtHeader.default c cfg.secret) now =
        .error (.authToken .expiredSignature)) ∧
    (toTimestamp now < c.exp →
      (JwtServiceDefault.new cfg).verify_token
          (jwtEncode JwtHeader.default c cfg.secret) now = .ok c) := by
  constructor <;> intro h <;>
    simp only [JwtServiceDefault.new, JwtServiceDefault.verify_token, jwtEncode,
      jwtDecode, JwtValidation.default, JwtHeader.default, toTimestamp] at h ⊢
  · rw [if_neg (by simp), if_neg (by simp), if_pos (by simp; omega)]
  · rw [if_neg (by simp), if_neg (by simp), if_neg (by simp; omega)]

/-- Claim C6 witness: a token with expiry timestamp 10 is rejected as
expired at instant 100000 ms (timestamp 100, more than 60 s past expiry)
and accepted at instant 5000 ms (timestamp 5, before expiry). -/
theorem claim_C6_expiry_boundary_witness :
    (JwtServiceDefault.new ⟨"s", 1000⟩).verify_token
        (jwtEncode JwtHeader.default ⟨10, 0, ⟨1⟩⟩ "s") 100000 =
      .error (.authToken .expiredSignature) ∧
    (JwtServiceDefault.new ⟨"s", 1000⟩).verify_token
        (jwtEncode JwtHeader.default ⟨10, 0, ⟨1⟩⟩ "s") 5000 = .ok ⟨10, 0, ⟨1⟩⟩ :=
  ⟨(claim_C6_expiry_boundary ⟨"s", 1000⟩ ⟨10, 0, ⟨1⟩⟩ 100000).1 (by decide),
   (claim_C6_expiry_boundary ⟨"s", 1000⟩ ⟨10, 0, ⟨1⟩⟩ 5000).2 (by decide)⟩

/-- Claim C7: changing any single byte of the signature segment of a token
the service issued makes verification fail with the invalid-signature
kind — at every verification instant, so never with the expired kind and
never with a malformed kind. -/
theorem claim_C7_tamper_detection (cfg : JwtConfig) (pid : PlayerId) (now : Int)
    (verifyNow : Int) (tok : EncodedToken) (i : Nat) (b : Nat)
    (htok : (JwtServiceDefault.new cfg).create_token pid now = .ok tok)
    (hi : i < tok.sig.length) (hb : b ≠ tok.sig.get ⟨i, hi⟩) :
    (JwtServiceDefault.new cfg).verify_token
        ⟨tok.header, tok.claims, tok.sig.set i b⟩ verifyNow =
      .error (.authToken .invalidSignature) := by
  have hneq : tok.sig.set i b ≠ tok.sig := by
    intro hEq
    apply hb
    have h2 := congrArg (fun l : List Nat => l.getD i 0) hEq
    simp only at h2
    have hlen : i < (tok.sig.set i b).length := by simpa using hi
    rw [List.getD_eq_getElem _ _ hlen, List.getD_eq_getElem _ _ hi,
      List.getElem_set_self] at h2
    rw [List.get_eq_getElem]
    exact h2
  have htok' : tok = jwtEncode JwtHeader.default
      ⟨toTimestamp (now + cfg.ttl), toTimestamp now, pid⟩ cfg.secret := by
    have h3 := htok
    simp only [JwtServiceDefault.create_token, JwtServiceDefault.new,
      Except.ok.injEq] at h3
    exact h3.symm
  rw [htok'] at hneq
  subst htok'
  simp only [JwtServiceDefault.new, JwtServiceDefault.verify_token, jwtEncode,
    jwtDecode, JwtValidation.default, JwtHeader.default] at hneq ⊢
  rw [if_neg (by simp), if_pos (by simpa using hneq)]

/-- Claim C7 witness: the first signature byte of a concretely issued
token, overwritten with a different value, makes verification fail with
the invalid-signature kind. -/
theorem claim_C7_tamper_detection_witness :
    (JwtServiceDefault.new ⟨"s", 1000⟩).verify_token
        ⟨(jwtEncode JwtHeader.default ⟨1, 0, ⟨1⟩⟩ "s").header,
         (jwtEncode JwtHeader.default ⟨1, 0, ⟨1⟩⟩ "s").claims,
         (jwtEncode JwtHeader.default ⟨1, 0, ⟨1⟩⟩ "s").sig.set 0 0⟩ 999999999 =
      .error (.authToken .invalidSignature) :=
  claim_C7_tamper_detection ⟨"s", 1000⟩ ⟨1⟩ 0 999999999
    (jwtEncode JwtHeader.default ⟨1, 0, ⟨1⟩⟩ "s") 0 0 rfl (by decide) (by decide)

/-- Claim C8 counterexample: the configuration with the one-character JWT
secret `"r"`. Its Debug rendering does contain the literal secret as a
substring (the fixed text `<jwt_secret_redacted>` itself contains an `r`),
so "never contains the literal secret substring, for secrets of any
content and length" fails as stated. -/
theorem claim_C8_counterexample :
    strOccursIn "r" (JwtConfig.debugRender ⟨"r", 3600000⟩) = true := by
  decide

/-- Claim C8 amended: every Debug rendering of the configuration types
shows the fixed redacted placeholder in place of each secret-marked field
(the JWT secret, the Postgres username and password, and any
`SecretConfig`-wrapped value) and is entirely independent of the secret's
value, for secrets of any content and length; consequently the rendering
contains the literal secret substring only when the secret already occurs
in the secret-independent text, as in the one-character counterexample. -/
theorem claim_C8_amended :
    (∀ (c : PostgresConfig) (u w : String),
      PostgresConfig.debugRender
        ⟨c.host, c.port, u, w, c.database⟩ = c.debugRender) ∧
    (∀ c : PostgresConfig,
      strOccursIn "<postgres_username_redacted>" c.debugRender = true ∧
      strOccursIn "<postgres_password_redacted>" c.debugRender = true) ∧
    (∀ (c : JwtConfig) (s : String),
      JwtConfig.debugRender ⟨s, c.ttl⟩ = c.debugRender) ∧
    (∀ c : JwtConfig, strOccursIn "<jwt_secret_redacted>" c.debugRender = true) ∧
    (∀ (T : Type) (n : String) (a b : SecretConfig T),
      SecretConfig.debugRender n a = SecretConfig.debugRender n b) ∧
    (∀ (s : String) (ttl : Int),
      strOccursIn s (JwtConfig.debugRender ⟨"", ttl⟩) = false →
      strOccursIn s (JwtConfig.debugRender ⟨s, ttl⟩) = false) := by
  refine ⟨fun c u w => rfl, fun c => ⟨?_, ?_⟩, fun c s => rfl, fun c => ?_,
    fun T n a b => rfl, fun s ttl h => h⟩
  · unfold strOccursIn PostgresConfig.debugRender
    simp only [String.data_append, List.append_assoc]
    apply occursIn_append_of_right
    apply occursIn_append_of_right
    apply occursIn_append_of_right
    apply occursIn_append_of_right
    apply occursIn_append_of_left
    decide
  · unfold strOccursIn PostgresConfig.debugRender
    simp only [String.data_append, List.append_assoc]
    apply occursIn_append_of_right
    apply occursIn_append_of_right
    apply occursIn_append_of_right
    apply occursIn_append_of_right
    apply occursIn_append_of_right
    apply occursIn_append_of_left
    decide
  · unfold strOccursIn JwtConfig.debugRender
    simp only [String.data_append, List.append_assoc]
    apply occursIn_append_of_left
    decide

/-- Claim C8 amended witness: a distinctive secret that does not occur in
the secret-independent rendering never appears in the rendering of the
configuration holding it. -/
theorem claim_C8_amended_witness :
    strOccursIn "jwt_1q2w3e4r_secret"
      (JwtConfig.debugRender ⟨"", 3600000⟩) = false ∧
    strOccursIn "jwt_1q2w3e4r_secret"
      (JwtConfig.debugRender ⟨"jwt_1q2w3e4r_secret", 3600000⟩) = false :=
  ⟨by decide,
    claim_C8_amended.2.2.2.2.2 "jwt_1q2w3e4r_secret" 3600000 (by decide)⟩

end Gamehub
